import Mathlib

/-!
Verification of the Mission Simulation Engine of this repository
(`src/App.tsx` together with the `services/api` module).

The engine is embedded shallowly:
* JavaScript numbers in the outcome estimator are modelled as rationals `ℚ`
  (all of its arithmetic is decimal multiplication, addition and clamping);
* the position model and the trajectory-curve generator, which use `Math.sin`,
  `Math.cos` and `Math.PI`, are modelled over the reals `ℝ`;
* React state (`useState` cells `parameters`, `results`, `isSimulating`,
  `isAnimating`, `apiError`) is gathered in an `AppState` record, and the
  asynchronous `simulateMission` handler becomes a pure transition that takes
  the remote call's result (`Except` of a failure) as an explicit argument;
* the remote service is external: its responses are arbitrary values of the
  wire-format record `MissionResults`.
-/

/-! ## Data model (`UIMissionParameters`, `UIMissionResults`, the api module) -/

/-- The `propulsionType` field of `UIMissionParameters`: the string union
`'chemical' | 'ion' | 'solar-sail'` of `App.tsx`. -/
inductive PropulsionType
  | chemical
  | ion
  | solarSail
deriving DecidableEq, Repr

/-- The string value each propulsion variant has in the TypeScript union. -/
def PropulsionType.toApiString : PropulsionType → String
  | .chemical => "chemical"
  | .ion => "ion"
  | .solarSail => "solar-sail"

/-- The `payloadSize` field: the string union `'small' | 'medium' | 'large'`. -/
inductive PayloadSize
  | small
  | medium
  | large
deriving DecidableEq, Repr

/-- The string value each payload class has in the TypeScript union. -/
def PayloadSize.toApiString : PayloadSize → String
  | .small => "small"
  | .medium => "medium"
  | .large => "large"

/-- `interface UIMissionParameters` of `App.tsx`. -/
structure UIMissionParameters where
  launchDate : String
  propulsionType : PropulsionType
  payloadSize : PayloadSize
deriving DecidableEq, Repr

/-- `interface UIMissionResults` of `App.tsx`. -/
structure UIMissionResults where
  travelTime : ℚ
  deltaV : ℚ
  successProbability : ℚ
  missionLog : List String
  fuelCost : ℚ
  missionStatus : String
deriving DecidableEq, Repr

/-- `interface MissionParameters` of the api module: the wire format sent to
the remote estimation service. -/
structure MissionParameters where
  launch_date : String
  propulsion_type : String
  payload_size : String
deriving DecidableEq, Repr

/-- `interface MissionResults` of the api module: the wire format of a remote
response, mapped field for field into `UIMissionResults` on success. -/
structure MissionResults where
  travel_time : ℚ
  delta_v : ℚ
  success_probability : ℚ
  mission_log : List String
  fuel_cost : ℚ
  mission_status : String
deriving DecidableEq, Repr

/-! ## Fallback heuristic (`simulateMission`, catch branch, `App.tsx:1182-1237`) -/

/-- JavaScript's `Number.prototype.toFixed(1)` on the non-negative decimals the
fallback produces: round to one decimal digit and print. -/
def toFixed1 (q : ℚ) : String :=
  let n : ℤ := (q * 10 + 1 / 2).floor
  toString (n / 10) ++ "." ++ toString (n % 10)

/-- `Number.prototype.toFixed(0)` on the non-negative percentage the fallback
prints. -/
def toFixed0 (q : ℚ) : String :=
  toString ((q + 1 / 2).floor : ℤ)

/-- The multiplier triple `(deltaVMultiplier, timeMultiplier, successBase)`
after the two `switch` statements of the fallback branch: initialised to
`(1, 1, 0.7)`, overwritten per propulsion type, then adjusted per payload size
(`small` and `large` are the only cases; `medium` falls through unchanged). -/
def fallbackAdjusted (parameters : UIMissionParameters) : ℚ × ℚ × ℚ :=
  let start : ℚ × ℚ × ℚ := (1, 1, 0.7)
  let afterPropulsion :=
    match parameters.propulsionType with
    | .chemical => ((1.2 : ℚ), (0.8 : ℚ), (0.6 : ℚ))
    | .ion => ((0.8 : ℚ), (1.2 : ℚ), (0.8 : ℚ))
    | .solarSail => ((0.3 : ℚ), (2.0 : ℚ), (0.5 : ℚ))
  let _ := start
  match parameters.payloadSize with
  | .small => (afterPropulsion.1 * 0.9, afterPropulsion.2.1 * 0.9, afterPropulsion.2.2 + 0.1)
  | .large => (afterPropulsion.1 * 1.3, afterPropulsion.2.1 * 1.3, afterPropulsion.2.2 - 0.1)
  | .medium => afterPropulsion

/-- The fallback `UIMissionResults` computed in the `catch` branch of
`simulateMission` (`App.tsx:1182-1237`). -/
def fallbackResults (parameters : UIMissionParameters) : UIMissionResults :=
  let baseDeltaV : ℚ := 15
  let baseTravelTime : ℚ := 5
  let deltaVMultiplier := (fallbackAdjusted parameters).1
  let timeMultiplier := (fallbackAdjusted parameters).2.1
  let successBase := (fallbackAdjusted parameters).2.2
  let finalDeltaV := baseDeltaV * deltaVMultiplier
  let finalTravelTime := baseTravelTime * timeMultiplier
  let finalSuccess := max 0.1 (min 0.95 successBase)
  { travelTime := finalTravelTime
    deltaV := finalDeltaV
    successProbability := finalSuccess
    missionLog :=
      [ "⚠️ Offline mode - API unavailable"
      , "Mission parameters: " ++ parameters.propulsionType.toApiString
          ++ " propulsion, " ++ parameters.payloadSize.toApiString ++ " payload"
      , "Calculated ΔV requirement: " ++ toFixed1 finalDeltaV ++ " km/s"
      , "Estimated travel time: " ++ toFixed1 finalTravelTime ++ " years"
      , "Mission success probability: " ++ toFixed0 (finalSuccess * 100) ++ "%" ]
    fuelCost := finalDeltaV * 0.8
    missionStatus := if finalSuccess > 0.7 then "success" else "warning" }

/-! ## Orchestrator state (`App` component, `useState` cells) -/

/-- The React state of the `App` component: the five `useState` cells
`parameters`, `results`, `isSimulating`, `isAnimating`, `apiError`. -/
structure AppState where
  parameters : UIMissionParameters
  results : UIMissionResults
  isSimulating : Bool
  isAnimating : Bool
  apiError : Option String
deriving DecidableEq, Repr

/-- The initial / pending `UIMissionResults` value: the literal used both to
initialise the `results` cell (`App.tsx:1135-1142`) and by `resetMission`
(`App.tsx:1247-1254`). -/
def initialResults : UIMissionResults :=
  { travelTime := 0
    deltaV := 0
    successProbability := 0
    missionLog := []
    fuelCost := 0
    missionStatus := "pending" }

/-- The initial `App` state (`App.tsx:1129-1146`). -/
def initialAppState : AppState :=
  { parameters := { launchDate := "2025-10-30T10:00", propulsionType := .ion, payloadSize := .medium }
    results := initialResults
    isSimulating := false
    isAnimating := false
    apiError := none }

/-- A failure of the remote delegation, of any kind the transport can raise:
timeout, network error, non-2xx HTTP status, or anything else rejected by the
http client. The `catch` in `simulateMission` binds all of them alike. -/
inductive DelegationFailure
  | timeout
  | networkError
  | httpStatus : ℕ → DelegationFailure
  | other : String → DelegationFailure
deriving DecidableEq, Repr

/-! ## `simulateMission` (`App.tsx:1149-1244`) -/

/-- The `apiParams` value built at `App.tsx:1156-1160`: the UI parameters
converted, unconditionally and without any prior validation, into the wire
format posted to the remote service. -/
def apiParams (parameters : UIMissionParameters) : MissionParameters :=
  { launch_date := parameters.launchDate
    propulsion_type := parameters.propulsionType.toApiString
    payload_size := parameters.payloadSize.toApiString }

/-- The request `simulateMission` issues to the remote service, `none` standing
for a local rejection before delegation. The source has no validation branch:
the body of the `try` block builds `apiParams` and posts it for every input, so
this is `some (apiParams parameters)` unconditionally. -/
def delegationRequest (parameters : UIMissionParameters) : Option MissionParameters :=
  some (apiParams parameters)

/-- The field-for-field conversion of a remote response into `UIMissionResults`
(`App.tsx:1166-1173`). -/
def uiResultsOfApi (apiResults : MissionResults) : UIMissionResults :=
  { travelTime := apiResults.travel_time
    deltaV := apiResults.delta_v
    successProbability := apiResults.success_probability
    missionLog := apiResults.mission_log
    fuelCost := apiResults.fuel_cost
    missionStatus := apiResults.mission_status }

/-- The synchronous prefix of `simulateMission`, run before the remote call
suspends: `setIsSimulating(true); setIsAnimating(false); setApiError(null)`
(`App.tsx:1150-1152`). -/
def simulateMissionStart (s : AppState) : AppState :=
  { s with isSimulating := true, isAnimating := false, apiError := none }

/-- The message stored in `apiError` when delegation fails
(`App.tsx:1179`). -/
def offlineModeMessage : String :=
  "Failed to connect to simulation API. Using offline mode..."

/-- The settling half of `simulateMission`: how the state is updated once the
remote call either returns a response (`try` body, `App.tsx:1163-1176`) or
rejects (`catch` branch, `App.tsx:1177-1240`), with the `finally` clearing
`isSimulating` (`App.tsx:1241-1243`). Every failure, whatever its kind, takes
the same `catch` branch. -/
def simulateMissionSettle (s : AppState)
    (remote : Except DelegationFailure MissionResults) : AppState :=
  match remote with
  | .ok apiResults =>
      { s with
        results := uiResultsOfApi apiResults
        isAnimating := true
        isSimulating := false }
  | .error _ =>
      { s with
        apiError := some offlineModeMessage
        results := fallbackResults s.parameters
        isAnimating := true
        isSimulating := false }

/-- One full `simulateMission` run, from invocation to settlement, with the
outcome of the awaited remote call supplied as an argument. -/
def simulateMission (s : AppState)
    (remote : Except DelegationFailure MissionResults) : AppState :=
  simulateMissionSettle (simulateMissionStart s) remote

/-- The `Simulate Mission` button of `ControlPanel` (`App.tsx:906-913`): its
`onClick` is `simulateMission`, but the button carries `disabled={isSimulating}`,
so a press while a run is in flight fires nothing and leaves the state as it
is; otherwise it starts a run. -/
def pressSimulateButton (s : AppState) : AppState :=
  if s.isSimulating then s else simulateMissionStart s

/-- `resetMission` (`App.tsx:1246-1257`): restores the `results` cell to the
pending default and clears `isAnimating` and `apiError`, touching nothing
else. -/
def resetMission (s : AppState) : AppState :=
  { s with
    results := initialResults
    isAnimating := false
    apiError := none }

/-! ## Position model (`getTimeBasedPositions`, `App.tsx:514-547`) -/

/-- The millisecond epoch value of `new Date('2025-10-30')`, the reference
(perihelion) date of `getTimeBasedPositions`. -/
def optimalDateMs : ℝ := 1761782400000

/-- `getTimeBasedPositions` (`App.tsx:514-547`), taking the parsed millisecond
value of the launch date (`launch.getTime()`): returns
`(earthPosition, atlasPosition, currentDistance, timeFromPerihelion)`. -/
noncomputable def getTimeBasedPositions (launchMs : ℝ) :
    (ℝ × ℝ × ℝ) × (ℝ × ℝ × ℝ) × ℝ × ℝ :=
  let daysDiff := (launchMs - optimalDateMs) / (1000 * 60 * 60 * 24)
  let earthOrbitalPhase := daysDiff / 365.25 * (2 * Real.pi)
  let earthPosition : ℝ × ℝ × ℝ :=
    (-3 + 0.3 * Real.cos earthOrbitalPhase, 0.3 * Real.sin earthOrbitalPhase, 0)
  let timeFromPerihelion := daysDiff / 365.25
  let perihelionDistance : ℝ := 1.4
  let currentDistance := perihelionDistance + |timeFromPerihelion| * 2.0
  let scaledDistance := currentDistance * 2
  let atlasPosition : ℝ × ℝ × ℝ :=
    (scaledDistance, 3 + timeFromPerihelion * 0.5, 0)
  (earthPosition, atlasPosition, currentDistance, timeFromPerihelion)

/-! ## Trajectory curve generator (`getTrajectoryPoints`, `App.tsx:608-665`) -/

/-- The body of the sampling loop of `getTrajectoryPoints`: the point pushed
for one parameter value `t`, selected by the `switch` on `propulsionType`
(string-valued, with a linear-interpolation `default` for unrecognized
variants). -/
noncomputable def trajectorySample (propulsionType : String)
    (earthPosition atlasPosition : ℝ × ℝ × ℝ) (t : ℝ) : ℝ × ℝ × ℝ :=
  let (earthX, earthY, earthZ) := earthPosition
  let (atlasX, atlasY, atlasZ) := atlasPosition
  if propulsionType = "chemical" then
    (earthX + (atlasX - earthX) * t,
     earthY + (atlasY - earthY) * t + Real.sin (t * Real.pi) * 0.5,
     earthZ + (atlasZ - earthZ) * t)
  else if propulsionType = "ion" then
    let controlX := (earthX + atlasX) / 2
    let controlY := max earthY atlasY + 1.5
    ((1 - t) ^ 2 * earthX + 2 * (1 - t) * t * controlX + t ^ 2 * atlasX,
     (1 - t) ^ 2 * earthY + 2 * (1 - t) * t * controlY + t ^ 2 * atlasY,
     earthZ + (atlasZ - earthZ) * t)
  else if propulsionType = "solar-sail" then
    let sailControl1X := earthX + (atlasX - earthX) * 0.3
    let sailControl1Y := earthY + 3.0
    let sailControl2X := earthX + (atlasX - earthX) * 0.7
    let sailControl2Y := earthY + 2.0
    ((1 - t) ^ 3 * earthX + 3 * (1 - t) ^ 2 * t * sailControl1X
        + 3 * (1 - t) * t ^ 2 * sailControl2X + t ^ 3 * atlasX,
     (1 - t) ^ 3 * earthY + 3 * (1 - t) ^ 2 * t * sailControl1Y
        + 3 * (1 - t) * t ^ 2 * sailControl2Y + t ^ 3 * atlasY,
     earthZ + (atlasZ - earthZ) * t)
  else
    (earthX + (atlasX - earthX) * t,
     earthY + (atlasY - earthY) * t,
     earthZ + (atlasZ - earthZ) * t)

/-- The sampling loop of `getTrajectoryPoints` with the segment count as a
parameter: `for (let i = 0; i <= segments; i++)` pushing the sample at
`t = i / segments`. -/
noncomputable def getTrajectoryPointsN (propulsionType : String)
    (earthPosition atlasPosition : ℝ × ℝ × ℝ) (segments : ℕ) :
    List (ℝ × ℝ × ℝ) :=
  (List.range (segments + 1)).map fun i : ℕ =>
    trajectorySample propulsionType earthPosition atlasPosition
      ((i : ℝ) / (segments : ℝ))

/-- `getTrajectoryPoints` (`App.tsx:608-665`): the loop instantiated at the
hard-coded `const segments = 50`. -/
noncomputable def getTrajectoryPoints (propulsionType : String)
    (earthPosition atlasPosition : ℝ × ℝ × ℝ) : List (ℝ × ℝ × ℝ) :=
  getTrajectoryPointsN propulsionType earthPosition atlasPosition 50

/-! ## The spec's closed-form fallback heuristic (§4.3 / §8 of the design) -/

/-- The per-propulsion row `(deltaV-multiplier, time-multiplier, success-base)`
of the spec's table: chemical `(1.2, 0.8, 0.6)`, ion `(0.8, 1.2, 0.8)`,
solarSail `(0.3, 2.0, 0.5)`. Stated from the spec's words for comparison with
the code's `fallbackAdjusted`. -/
def specPropulsionRow : PropulsionType → ℚ × ℚ × ℚ
  | .chemical => (1.2, 0.8, 0.6)
  | .ion => (0.8, 1.2, 0.8)
  | .solarSail => (0.3, 2.0, 0.5)

/-- The spec's per-payload adjustment `(×d, ×t, +s)`: small `(0.9, 0.9, +0.1)`,
medium `(1.0, 1.0, +0.0)`, large `(1.3, 1.3, -0.1)`, applied multiplicatively
to the two multipliers and additively to the success base. -/
def specPayloadAdjustment : PayloadSize → ℚ × ℚ × ℚ
  | .small => (0.9, 0.9, 0.1)
  | .medium => (1.0, 1.0, 0.0)
  | .large => (1.3, 1.3, -0.1)

/-- The spec's closed-form fallback heuristic, §4.3 step 3 / §8: deltaV
`= 15 × deltaV-multiplier`, transitYears `= 5 × time-multiplier`,
successProbability `= clamp(success-base, 0.1, 0.95)`, propellantCost
`= deltaV × 0.8`, status `"success"` iff the success probability exceeds
`0.7`. Returned as `(deltaV, transitYears, successProbability,
propellantCost, status)`. -/
def specFallbackHeuristic (parameters : UIMissionParameters) :
    ℚ × ℚ × ℚ × ℚ × String :=
  let (dMul, tMul, sBase) := specPropulsionRow parameters.propulsionType
  let (dAdj, tAdj, sAdj) := specPayloadAdjustment parameters.payloadSize
  let deltaV := 15 * (dMul * dAdj)
  let transitYears := 5 * (tMul * tAdj)
  let successProbability := max 0.1 (min 0.95 (sBase + sAdj))
  (deltaV, transitYears, successProbability, deltaV * 0.8,
    if successProbability > 0.7 then "success" else "warning")

/-- Modelled from the spec: §7 asks that an implementation validate that
`launchEpoch` "is a parseable timestamp" — the source contains no such check,
so parseability is modelled as the launch date string being non-empty and
built only of the characters of the repository's `datetime-local` format
(digits, `-`, `:`, `T`, `.`). -/
def isParseableTimestamp (s : String) : Bool :=
  s.length > 0 &&
    s.toList.all fun c => c.isDigit || c = '-' || c = ':' || c = 'T' || c = '.'

/-- A `UIMissionParameters` whose launch date is not a parseable timestamp. -/
def badEpochParams : UIMissionParameters :=
  { launchDate := "not-a-date", propulsionType := .ion, payloadSize := .medium }

/-! ## Theorems -/

/-- Claim C1: for every `MissionParameters`, the fallback outcome computed when
remote delegation fails equals the spec's closed-form heuristic — deltaV
`= 15 × deltaV-multiplier`, transitYears `= 5 × time-multiplier`,
successProbability `= clamp(success-base, 0.1, 0.95)`, propellantCost
`= deltaV × 0.8`, with the propulsion table chemical `(1.2, 0.8, 0.6)`,
ion `(0.8, 1.2, 0.8)`, solarSail `(0.3, 2.0, 0.5)` and the payload adjustment
small `(×0.9, ×0.9, +0.1)`, medium `(×1.0, ×1.0, +0.0)`, large
`(×1.3, ×1.3, −0.1)`; in particular ion+medium yields
`(12.0, 6.0, 0.8, 9.6, "success")` and solarSail+large yields
`(5.85, 13.0, 0.4, "warning")`. -/
theorem fallbackResults_eq_specFallbackHeuristic (parameters : UIMissionParameters) :
    ((fallbackResults parameters).deltaV, (fallbackResults parameters).travelTime,
      (fallbackResults parameters).successProbability,
      (fallbackResults parameters).fuelCost,
      (fallbackResults parameters).missionStatus) = specFallbackHeuristic parameters
    ∧ ((fallbackResults ⟨"2025-10-30T10:00", .ion, .medium⟩).deltaV,
        (fallbackResults ⟨"2025-10-30T10:00", .ion, .medium⟩).travelTime,
        (fallbackResults ⟨"2025-10-30T10:00", .ion, .medium⟩).successProbability,
        (fallbackResults ⟨"2025-10-30T10:00", .ion, .medium⟩).fuelCost,
        (fallbackResults ⟨"2025-10-30T10:00", .ion, .medium⟩).missionStatus)
        = (12, 6, 0.8, 9.6, "success")
    ∧ ((fallbackResults ⟨"2025-10-30T10:00", .solarSail, .large⟩).deltaV,
        (fallbackResults ⟨"2025-10-30T10:00", .solarSail, .large⟩).travelTime,
        (fallbackResults ⟨"2025-10-30T10:00", .solarSail, .large⟩).successProbability,
        (fallbackResults ⟨"2025-10-30T10:00", .solarSail, .large⟩).missionStatus)
        = (5.85, 13, 0.4, "warning") := by
  refine ⟨?_, ?_, ?_⟩
  · obtain ⟨ld, pt, ps⟩ := parameters
    cases pt <;> cases ps <;>
      norm_num [fallbackResults, fallbackAdjusted, specFallbackHeuristic,
        specPropulsionRow, specPayloadAdjustment, min_def, max_def]
  · norm_num [fallbackResults, fallbackAdjusted, min_def, max_def]
  · norm_num [fallbackResults, fallbackAdjusted, min_def, max_def]

/-- Claim C6: for every `MissionParameters`, the fallback outcome's status is
`"success"` if and only if the computed success probability is strictly
greater than `0.7`, and is `"warning"` otherwise. -/
theorem fallbackResults_status_iff (parameters : UIMissionParameters) :
    ((fallbackResults parameters).missionStatus = "success" ↔
      (fallbackResults parameters).successProbability > 0.7)
    ∧ ((fallbackResults parameters).missionStatus = "warning" ↔
      ¬ (fallbackResults parameters).successProbability > 0.7) := by
  obtain ⟨ld, pt, ps⟩ := parameters
  cases pt <;> cases ps <;>
    norm_num [fallbackResults, fallbackAdjusted, min_def, max_def] <;> decide

/-- Claim C9: for every propulsion variant and payload class, the adjusted
success base of the fallback heuristic already lies within `[0.4, 0.9]`, so
the clamp to `[0.1, 0.95]` never alters it: the fallback successProbability
always equals the unclamped success base, and neither clamp bound is ever
attained. -/
theorem fallback_clamp_never_fires (parameters : UIMissionParameters) :
    0.4 ≤ (fallbackAdjusted parameters).2.2
    ∧ (fallbackAdjusted parameters).2.2 ≤ 0.9
    ∧ max 0.1 (min 0.95 (fallbackAdjusted parameters).2.2)
        = (fallbackAdjusted parameters).2.2
    ∧ (fallbackResults parameters).successProbability
        = (fallbackAdjusted parameters).2.2
    ∧ (fallbackResults parameters).successProbability ≠ 0.1
    ∧ (fallbackResults parameters).successProbability ≠ 0.95 := by
  obtain ⟨ld, pt, ps⟩ := parameters
  cases pt <;> cases ps <;>
    norm_num [fallbackResults, fallbackAdjusted, min_def, max_def]

/-- Claim C3: for every state and every kind of delegation failure, the
estimator propagates no exception — modelled by `simulateMission` being a
total function into `AppState` — and every failure path stores the fallback
outcome together with the degraded-mode signal (`apiError`, a state cell
separate from the outcome), which is identical for all failure kinds and is
`none` when the remote path succeeds. -/
theorem simulateMission_no_exception_escapes (s : AppState)
    (e e₂ : DelegationFailure) (r : MissionResults) :
    (simulateMission s (.error e)).results = fallbackResults s.parameters
    ∧ (simulateMission s (.error e)).apiError = some offlineModeMessage
    ∧ (simulateMission s (.error e)).isSimulating = false
    ∧ simulateMission s (.error e) = simulateMission s (.error e₂)
    ∧ (simulateMission s (.ok r)).apiError = none
    ∧ (simulateMission s (.ok r)).results = uiResultsOfApi r :=
  ⟨rfl, rfl, rfl, rfl, rfl, rfl⟩

/-- Claim C4 (counterexample): a remote response reporting a success
probability of `2` is adopted verbatim, so the stored outcome violates
`successProbability ≤ 1`. -/
theorem remote_outcome_violates_bounds :
    (simulateMission initialAppState (.ok
      { travel_time := 1, delta_v := 1, success_probability := 2,
        mission_log := [], fuel_cost := 1,
        mission_status := "success" })).results.successProbability = 2
    ∧ ¬ ((2 : ℚ) ≤ 1) :=
  ⟨rfl, by norm_num⟩

/-- Claim C4 (amended): every fallback-computed outcome and the pending
default satisfy `successProbability ∈ [0,1]`, `deltaV ≥ 0`,
`transitYears ≥ 0`, `propellantCost ≥ 0`; a remote-derived outcome is adopted
verbatim (field for field), so it satisfies these bounds exactly when the
remote response does. -/
theorem stored_outcome_bounds (parameters : UIMissionParameters)
    (s : AppState) (r : MissionResults) :
    (0 ≤ (fallbackResults parameters).successProbability
      ∧ (fallbackResults parameters).successProbability ≤ 1
      ∧ 0 ≤ (fallbackResults parameters).deltaV
      ∧ 0 ≤ (fallbackResults parameters).travelTime
      ∧ 0 ≤ (fallbackResults parameters).fuelCost)
    ∧ (0 ≤ initialResults.successProbability
      ∧ initialResults.successProbability ≤ 1
      ∧ 0 ≤ initialResults.deltaV
      ∧ 0 ≤ initialResults.travelTime
      ∧ 0 ≤ initialResults.fuelCost)
    ∧ (simulateMission s (.ok r)).results = uiResultsOfApi r := by
  refine ⟨?_, ?_, rfl⟩
  · obtain ⟨ld, pt, ps⟩ := parameters
    cases pt <;> cases ps <;>
      norm_num [fallbackResults, fallbackAdjusted, min_def, max_def]
  · refine ⟨le_refl 0, ?_, le_refl 0, le_refl 0, le_refl 0⟩
    norm_num [initialResults]

/-- Claim C5: at most one simulation run is in flight — a started run marks
the state `isSimulating`, and pressing the simulate button (the only caller of
`simulateMission`, disabled while a run is in flight) in such a state is a
no-op: the state, and in particular the stored outcome, is unchanged, so only
the run already in flight produces a `MissionOutcome`. -/
theorem simulate_single_flight (s : AppState) (h : s.isSimulating = true) :
    pressSimulateButton s = s
    ∧ (pressSimulateButton s).results = s.results
    ∧ ∀ s₂ : AppState, (simulateMissionStart s₂).isSimulating = true := by
  refine ⟨?_, ?_, fun s₂ => rfl⟩ <;> simp [pressSimulateButton, h]

/-- Witness for C5: the state reached by starting a run from the initial
state is in flight, and a simulate press there is a no-op. -/
theorem simulate_single_flight_witness :
    (simulateMissionStart initialAppState).isSimulating = true
    ∧ (pressSimulateButton (simulateMissionStart initialAppState)
          = simulateMissionStart initialAppState
      ∧ (pressSimulateButton (simulateMissionStart initialAppState)).results
          = (simulateMissionStart initialAppState).results
      ∧ ∀ s₂ : AppState, (simulateMissionStart s₂).isSimulating = true) :=
  ⟨rfl, simulate_single_flight (simulateMissionStart initialAppState) rfl⟩

/-- Claim C10: `resetMission` clears only the run's results — the outcome
returns to the pending default (all metrics zero, empty log, status
`"pending"`), the animation and degraded-mode flags are cleared, and the
selected `MissionParameters` are left unchanged. -/
theorem resetMission_frame (s : AppState) :
    (resetMission s).parameters = s.parameters
    ∧ (resetMission s).results = initialResults
    ∧ initialResults
        = { travelTime := 0, deltaV := 0, successProbability := 0,
            missionLog := [], fuelCost := 0, missionStatus := "pending" }
    ∧ (resetMission s).isAnimating = false
    ∧ (resetMission s).apiError = none
    ∧ (resetMission s).isSimulating = s.isSimulating :=
  ⟨rfl, rfl, rfl, rfl, rfl, rfl⟩

/-- Claim C8 (counterexample): the parameters whose launch date is the
unparseable string `"not-a-date"` are not rejected locally — the estimator
still builds the wire-format request and attempts delegation, and when the
delegation then fails the run settles to the fallback outcome, not to a
validation error. -/
theorem no_local_validation_counterexample :
    isParseableTimestamp badEpochParams.launchDate = false
    ∧ delegationRequest badEpochParams = some (apiParams badEpochParams)
    ∧ (simulateMission { initialAppState with parameters := badEpochParams }
        (.error .networkError)).results = fallbackResults badEpochParams :=
  ⟨by decide, rfl, rfl⟩

/-- Claim C8 (amended): the estimator performs no local validation of the
launch epoch — for every `MissionParameters`, parseable or not, it builds the
request and attempts delegation, and a delegation failure settles to the
fallback outcome rather than to a local validation error. -/
theorem delegation_always_attempted (parameters : UIMissionParameters)
    (s : AppState) (e : DelegationFailure) :
    delegationRequest parameters = some (apiParams parameters)
    ∧ (simulateMission s (.error e)).results = fallbackResults s.parameters
    ∧ (simulateMission s (.error e)).apiError = some offlineModeMessage :=
  ⟨rfl, rfl, rfl⟩

/-- Claim C7: the position model is deterministic and side-effect free — it is
a pure function of the launch epoch, so any two calls with identical input
yield identical origin and target positions. -/
theorem getTimeBasedPositions_deterministic (t₁ t₂ : ℝ) (h : t₁ = t₂) :
    getTimeBasedPositions t₁ = getTimeBasedPositions t₂ := by
  rw [h]

/-- Witness for C7 at the reference epoch itself. -/
theorem getTimeBasedPositions_deterministic_witness :
    optimalDateMs = optimalDateMs
    ∧ getTimeBasedPositions optimalDateMs = getTimeBasedPositions optimalDateMs :=
  ⟨rfl, getTimeBasedPositions_deterministic optimalDateMs optimalDateMs rfl⟩

/-- The sample at parameter `t = 0` is the origin position, for every
propulsion variant (the chemical bump vanishes since `sin 0 = 0`). -/
theorem trajectorySample_zero (p : String) (e a : ℝ × ℝ × ℝ) :
    trajectorySample p e a 0 = e := by
  obtain ⟨ex, ey, ez⟩ := e
  obtain ⟨ax, ay, az⟩ := a
  unfold trajectorySample
  split_ifs <;> norm_num

/-- The sample at parameter `t = 1` is the target position, for every
propulsion variant (the chemical bump vanishes since `sin π = 0`, and the
Bézier weights collapse onto the final control point). -/
theorem trajectorySample_one (p : String) (e a : ℝ × ℝ × ℝ) :
    trajectorySample p e a 1 = a := by
  obtain ⟨ex, ey, ez⟩ := e
  obtain ⟨ax, ay, az⟩ := a
  unfold trajectorySample
  split_ifs <;> simp [Prod.mk.injEq]

/-- The parameterized sampling loop always yields `segments + 1` points. -/
theorem getTrajectoryPointsN_length (p : String) (e a : ℝ × ℝ × ℝ) (n : ℕ) :
    (getTrajectoryPointsN p e a n).length = n + 1 := by
  simp [getTrajectoryPointsN]

/-- The first generated point is the origin position. -/
theorem getTrajectoryPointsN_head (p : String) (e a : ℝ × ℝ × ℝ) (n : ℕ) :
    (getTrajectoryPointsN p e a n).head? = some e := by
  unfold getTrajectoryPointsN
  rw [List.range_succ_eq_map]
  simp [trajectorySample_zero]

/-- The last generated point is the target position, for every positive
segment count. -/
theorem getTrajectoryPointsN_getLast (p : String) (e a : ℝ × ℝ × ℝ)
    (n : ℕ) (hn : 1 ≤ n) :
    (getTrajectoryPointsN p e a n).getLast? = some a := by
  unfold getTrajectoryPointsN
  rw [List.range_succ, List.map_append, List.map_singleton, List.getLast?_concat]
  have hn0 : ((n : ℝ) ≠ 0) := Nat.cast_ne_zero.mpr (by omega)
  rw [div_self hn0, trajectorySample_one]

/-- Claim C2 (amended): for every origin, target and propulsion variant
(including unrecognized ones) the sampling loop with segment count `n ≥ 1`
returns exactly `n + 1` ordered points, the first equal to the origin and the
last equal to the target (exactly, in the real-number model); the source's
`getTrajectoryPoints` is this loop at the hard-coded segment count `50`.
Degenerate input (origin = target) still yields such a valid non-empty
sequence, but its points are not all repeats of the origin for the curved
variants (see the counterexample). -/
theorem getTrajectoryPoints_endpoints (p : String) (e a : ℝ × ℝ × ℝ)
    (n : ℕ) (hn : 1 ≤ n) :
    (getTrajectoryPointsN p e a n).length = n + 1
    ∧ (getTrajectoryPointsN p e a n).head? = some e
    ∧ (getTrajectoryPointsN p e a n).getLast? = some a
    ∧ getTrajectoryPoints p e a = getTrajectoryPointsN p e a 50 :=
  ⟨getTrajectoryPointsN_length p e a n, getTrajectoryPointsN_head p e a n,
    getTrajectoryPointsN_getLast p e a n hn, rfl⟩

/-- Witness for C2 at the ion variant, origin `(0,0,0)`, target `(2,0,0)` and
segment count `1`. -/
theorem getTrajectoryPoints_endpoints_witness :
    1 ≤ 1
    ∧ ((getTrajectoryPointsN "ion" (0, 0, 0) (2, 0, 0) 1).length = 1 + 1
      ∧ (getTrajectoryPointsN "ion" (0, 0, 0) (2, 0, 0) 1).head?
          = some ((0 : ℝ), 0, 0)
      ∧ (getTrajectoryPointsN "ion" (0, 0, 0) (2, 0, 0) 1).getLast?
          = some ((2 : ℝ), 0, 0)
      ∧ getTrajectoryPoints "ion" (0, 0, 0) (2, 0, 0)
          = getTrajectoryPointsN "ion" (0, 0, 0) (2, 0, 0) 50) :=
  ⟨le_refl 1, getTrajectoryPoints_endpoints "ion" (0, 0, 0) (2, 0, 0) 1 (le_refl 1)⟩

/-- The chemical branch of the sample function, unfolded. -/
theorem trajectorySample_chemical (e a : ℝ × ℝ × ℝ) (t : ℝ) :
    trajectorySample "chemical" e a t =
      (e.1 + (a.1 - e.1) * t,
       e.2.1 + (a.2.1 - e.2.1) * t + Real.sin (t * Real.pi) * 0.5,
       e.2.2 + (a.2.2 - e.2.2) * t) := by
  obtain ⟨ex, ey, ez⟩ := e
  obtain ⟨ax, ay, az⟩ := a
  simp [trajectorySample]

/-- Claim C2 (counterexample): on the degenerate input origin = target
= `(0,0,0)` with the chemical variant, `getTrajectoryPoints` does not produce
a sequence of repeated points — its first point is the origin but its middle
point (index 25, `t = 1/2`) is `(0, 0.5, 0)`, displaced by the sinusoidal
bump. -/
theorem degenerate_trajectory_not_repeated :
    (getTrajectoryPoints "chemical" (0, 0, 0) (0, 0, 0)).head?
        = some ((0 : ℝ), 0, 0)
    ∧ (getTrajectoryPoints "chemical" (0, 0, 0) (0, 0, 0))[25]?
        = some ((0 : ℝ), (0.5 : ℝ), (0 : ℝ))
    ∧ ((0 : ℝ), (0.5 : ℝ), (0 : ℝ)) ≠ ((0 : ℝ), (0 : ℝ), (0 : ℝ)) := by
  refine ⟨getTrajectoryPointsN_head _ _ _ _, ?_, by norm_num [Prod.ext_iff]⟩
  unfold getTrajectoryPoints getTrajectoryPointsN
  rw [List.getElem?_map, List.getElem?_range (by norm_num : 25 < 50 + 1)]
  have h : ((25 : ℕ) : ℝ) / ((50 : ℕ) : ℝ) * Real.pi = Real.pi / 2 := by
    push_cast
    ring
  rw [Option.map_some', trajectorySample_chemical, h, Real.sin_pi_div_two]
  norm_num
